import Mathlib

/-!
Shallow embedding of the gesture-driven solar-system viewer
(store `src/unnamed/part_000`, gesture trackers `src/components/HandTracker.tsx`
and `src/unnamed/part_002`, trajectory controller `src/components/SolarSystem.tsx`).

Numbers: the source computes with JavaScript float64; the embedding uses ℚ,
reading the source's decimal literals exactly (0.015 = 3/200, 0.05 = 1/20,
1.1 = 11/10, 0.2 = 1/5).  Square roots are eliminated by comparing squared
distances against squared thresholds (both sides nonnegative, so the
comparisons are equivalent).  The orbital `Math.cos` / `Math.sin` calls are
modelled by abstract function parameters `co si : ℚ → ℚ`, so every statement
about orbit geometry holds for the real cosine and sine in particular.
A JavaScript property access on `undefined` (reading a landmark index that a
short frame does not have) throws a TypeError; fallible reads are modelled
with `Option`, `none` standing for the thrown exception.
-/

namespace SolarSys

/-- One normalized hand landmark: `x`, `y` in screen space. -/
structure Pt where
  x : ℚ
  y : ℚ
deriving Repr, DecidableEq

/-- Gesture labels, the union type of `detectedGesture`
(`HandTracker.tsx` line 136, `part_002` line 116). -/
inductive Gesture
  | IDLE
  | POINT
  | PINCH
  | TWO
  | THREE
  | OPEN
deriving Repr, DecidableEq

/-- Focus targets as the trackers and `SolarSystem.tsx` use them
(`NONE`, `SATURN`, `EARTH`, `MOON`). -/
inductive Focus
  | NONE
  | SATURN
  | EARTH
  | MOON
deriving Repr, DecidableEq

/-- The gesture-status union type WRITTEN IN the store's `AppState`
interface, `part_000` lines 12-13.  It omits `'THREE'`, which the
trackers pass to `setGestureStatus`. -/
def declaredGestureUnion : List String := ["IDLE", "POINT", "PINCH", "TWO", "OPEN"]

/-- The focus-target union type WRITTEN IN the store's `AppState`
interface, `part_000` lines 15-16.  It omits `'MOON'`, which the trackers
pass to `setFocusTarget` and `SolarSystem.tsx` line 580 compares against.
At run time the TypeScript unions are erased and the zustand store holds
whatever value is passed, so the state model below uses the full
`Gesture` / `Focus` enumerations that the callers actually write. -/
def declaredFocusUnion : List String := ["NONE", "SATURN", "EARTH"]

/-- `MAX_ZOOM` (`part_000` line 3). -/
def MAX_ZOOM : ℚ := 1

/-- `MIN_ZOOM` (`part_000` line 4). -/
def MIN_ZOOM : ℚ := -1/2

/-- The interaction store's state (`part_000` lines 6-20, data fields only). -/
structure AppState where
  zoomLevel : ℚ
  gestureStatus : Gesture
  focusTarget : Focus
  saturnRotation : ℚ × ℚ
deriving Repr, DecidableEq

/-- The store's initial state (`part_000` lines 23-26). -/
def initialState : AppState :=
  { zoomLevel := 1/5, gestureStatus := .IDLE, focusTarget := .NONE
    saturnRotation := (0, 0) }

/-- `Math.max(MIN_ZOOM, Math.min(MAX_ZOOM, v))`, the clamp every zoom
mutation applies (`part_000` lines 28-34). -/
def clampZoom (v : ℚ) : ℚ := max MIN_ZOOM (min MAX_ZOOM v)

/-- `setZoomLevel` (`part_000` line 28). -/
def setZoomLevel (level : ℚ) (s : AppState) : AppState :=
  { s with zoomLevel := clampZoom level }

/-- `increaseZoom` (`part_000` lines 29-31). -/
def increaseZoom (amount : ℚ) (s : AppState) : AppState :=
  { s with zoomLevel := clampZoom (s.zoomLevel + amount) }

/-- `decreaseZoom` (`part_000` lines 32-34). -/
def decreaseZoom (amount : ℚ) (s : AppState) : AppState :=
  { s with zoomLevel := clampZoom (s.zoomLevel - amount) }

/-- `setGestureStatus` (`part_000` line 36). -/
def setGestureStatus (status : Gesture) (s : AppState) : AppState :=
  { s with gestureStatus := status }

/-- `setFocusTarget` (`part_000` line 37). -/
def setFocusTarget (target : Focus) (s : AppState) : AppState :=
  { s with focusTarget := target }

/-- `setSaturnRotation` (`part_000` line 38). -/
def setSaturnRotation (x y : ℚ) (s : AppState) : AppState :=
  { s with saturnRotation := (x, y) }

/-- One zoom mutation of the store: an absolute set or a relative
increment / decrement. -/
inductive ZoomMutation
  | set (level : ℚ)
  | inc (amount : ℚ)
  | dec (amount : ℚ)

/-- Apply one zoom mutation. -/
def applyZoomMutation (m : ZoomMutation) (s : AppState) : AppState :=
  match m with
  | .set level => setZoomLevel level s
  | .inc amount => increaseZoom amount s
  | .dec amount => decreaseZoom amount s

/-- The zoom range invariant `value ∈ [MIN_ZOOM, MAX_ZOOM]`. -/
def zoomInRange (z : ℚ) : Prop := MIN_ZOOM ≤ z ∧ z ≤ MAX_ZOOM

instance (z : ℚ) : Decidable (zoomInRange z) := by
  unfold zoomInRange
  infer_instance

/-- The ten landmark points both trackers read out of one frame, by their
fixed MediaPipe indices: wrist 0, thumb tip 4, index tip 8 / pip 6, middle
tip 12 / pip 10, ring tip 16 / pip 14, pinky tip 20 / pip 18. -/
structure Hand where
  wrist : Pt
  thumbTip : Pt
  indexTip : Pt
  indexPip : Pt
  middleTip : Pt
  middlePip : Pt
  ringTip : Pt
  ringPip : Pt
  pinkyTip : Pt
  pinkyPip : Pt
deriving Repr, DecidableEq

/-- The block of `landmarks[i]` reads (`HandTracker.tsx` lines 92-100,
`part_002` lines 84-100).  In JavaScript an out-of-range index yields
`undefined` and the following property access throws; here a missing index
makes the whole read `none`.  `part_002` also reads the wrist (index 0);
including it does not change the success domain, because index 20 is read
by both trackers and any list missing index 0 also misses index 20. -/
def readHand (lm : List Pt) : Option Hand := do
  let w ← lm[0]?
  let tt ← lm[4]?
  let it ← lm[8]?
  let ip ← lm[6]?
  let mt ← lm[12]?
  let mp ← lm[10]?
  let rt ← lm[16]?
  let rp ← lm[14]?
  let pkt ← lm[20]?
  let pkp ← lm[18]?
  some ⟨w, tt, it, ip, mt, mp, rt, rp, pkt, pkp⟩

/-- Squared thumb-tip-to-index-tip distance.  Both trackers compute
`Math.sqrt` of this and compare against `0.05`; as both sides are
nonnegative this is equivalent to comparing the square against `0.05² =
1/400`, which is how `isPinchBelowThreshold` states it. -/
def pinchDistSq (h : Hand) : ℚ :=
  (h.thumbTip.x - h.indexTip.x)^2 + (h.thumbTip.y - h.indexTip.y)^2

/-- `pinchDist < 0.05` (`HandTracker.tsx` lines 103-104, `part_002`
lines 109-110), stated on squared distances. -/
abbrev isPinchBelowThreshold (h : Hand) : Prop := pinchDistSq h < 1/400

/-- `isIndexExtended` (`HandTracker.tsx` line 111): tip above pip in
screen coordinates (y grows downward). -/
abbrev isIndexExtended (h : Hand) : Prop := h.indexTip.y < h.indexPip.y

/-- `isMiddleExtended` (`HandTracker.tsx` line 112). -/
abbrev isMiddleExtended (h : Hand) : Prop := h.middleTip.y < h.middlePip.y

/-- `isRingExtended` (`HandTracker.tsx` line 113). -/
abbrev isRingExtended (h : Hand) : Prop := h.ringTip.y < h.ringPip.y

/-- `isPinkyExtended` (`HandTracker.tsx` line 114). -/
abbrev isPinkyExtended (h : Hand) : Prop := h.pinkyTip.y < h.pinkyPip.y

/-- `isMiddleCurled` (`HandTracker.tsx` line 116). -/
abbrev isMiddleCurled (h : Hand) : Prop := h.middleTip.y > h.middlePip.y

/-- `isRingCurled` (`HandTracker.tsx` line 117). -/
abbrev isRingCurled (h : Hand) : Prop := h.ringTip.y > h.ringPip.y

/-- `isPinkyCurled` (`HandTracker.tsx` line 118). -/
abbrev isPinkyCurled (h : Hand) : Prop := h.pinkyTip.y > h.pinkyPip.y

/-- `isThree` (`HandTracker.tsx` line 124). -/
abbrev isThree (h : Hand) : Prop :=
  isIndexExtended h ∧ isMiddleExtended h ∧ isRingExtended h ∧ isPinkyCurled h

/-- `isTwo` (`HandTracker.tsx` line 127). -/
abbrev isTwo (h : Hand) : Prop :=
  isIndexExtended h ∧ isMiddleExtended h ∧ isRingCurled h ∧ isPinkyCurled h

/-- `isPointing` (`HandTracker.tsx` line 130). -/
abbrev isPointing (h : Hand) : Prop :=
  isIndexExtended h ∧ isMiddleCurled h ∧ isRingCurled h ∧ isPinkyCurled h

/-- `isOpenHand` (`HandTracker.tsx` line 133). -/
abbrev isOpenHand (h : Hand) : Prop :=
  isIndexExtended h ∧ isMiddleExtended h ∧ isRingExtended h ∧ isPinkyExtended h

/-- The gesture decision chain of `HandTracker.tsx` lines 136-160
(label only; the store side effects are in `applyGesture`). -/
def classifyY (h : Hand) : Gesture :=
  if isThree h then .THREE
  else if isTwo h then .TWO
  else if isPointing h then .POINT
  else if isOpenHand h then .OPEN
  else if isPinchBelowThreshold h then .PINCH
  else .IDLE

/-- Squared distance of a point from the wrist (`part_002` lines 92-93). -/
def wristDistSq (h : Hand) (p : Pt) : ℚ :=
  (p.x - h.wrist.x)^2 + (p.y - h.wrist.y)^2

/-- `isExtended` of `part_002` lines 88-97: the tip's squared distance
from the wrist exceeds the pip's by the 1.1 factor. -/
abbrev isExtendedDist (h : Hand) (tip pip : Pt) : Prop :=
  wristDistSq h tip > wristDistSq h pip * (11/10)

/-- `indexOpen` (`part_002` line 103). -/
abbrev indexOpen (h : Hand) : Prop := isExtendedDist h h.indexTip h.indexPip

/-- `middleOpen` (`part_002` line 104). -/
abbrev middleOpen (h : Hand) : Prop := isExtendedDist h h.middleTip h.middlePip

/-- `ringOpen` (`part_002` line 105). -/
abbrev ringOpen (h : Hand) : Prop := isExtendedDist h h.ringTip h.ringPip

/-- `pinkyOpen` (`part_002` line 106). -/
abbrev pinkyOpen (h : Hand) : Prop := isExtendedDist h h.pinkyTip h.pinkyPip

/-- The gesture decision chain of `part_002` lines 116-149 (label only). -/
def classifyDist (h : Hand) : Gesture :=
  if indexOpen h ∧ middleOpen h ∧ ringOpen h ∧ ¬ pinkyOpen h then .THREE
  else if indexOpen h ∧ middleOpen h ∧ ¬ ringOpen h ∧ ¬ pinkyOpen h then .TWO
  else if indexOpen h ∧ ¬ middleOpen h ∧ ¬ ringOpen h ∧ ¬ pinkyOpen h then .POINT
  else if indexOpen h ∧ middleOpen h ∧ ringOpen h ∧ pinkyOpen h then .OPEN
  else if isPinchBelowThreshold h then .PINCH
  else .IDLE

/-- The store updates each branch of the decision chain performs together
with the final `setGestureStatus(detectedGesture)` (`HandTracker.tsx`
lines 138-162; `part_002` lines 118-151 performs the identical updates
per label).  The index tip is needed for the POINT branch:
`rotY = (indexTip.x - 0.5) * 4.0`, `rotX = (indexTip.y - 0.5) * 4.0`,
`setSaturnRotation(rotX, rotY)`. -/
def applyGesture (g : Gesture) (indexTip : Pt) (s : AppState) : AppState :=
  match g with
  | .THREE => setGestureStatus .THREE (setFocusTarget .MOON s)
  | .TWO => setGestureStatus .TWO (setFocusTarget .EARTH s)
  | .POINT =>
      setGestureStatus .POINT
        (setSaturnRotation ((indexTip.y - 1/2) * 4) ((indexTip.x - 1/2) * 4)
          (setFocusTarget .SATURN s))
  | .OPEN => setGestureStatus .OPEN (increaseZoom (3/200) s)
  | .PINCH => setGestureStatus .PINCH (decreaseZoom (3/200) (setFocusTarget .NONE s))
  | .IDLE => setGestureStatus .IDLE s

/-- One present-hand frame of `predictWebcam` (`HandTracker.tsx` lines
87-162): read the fixed landmark indices (a missing one throws, i.e.
`none`), classify, apply the label's store updates. -/
def handleLandmarks (lm : List Pt) (s : AppState) : Option AppState :=
  (readHand lm).map fun h => applyGesture (classifyY h) h.indexTip s

/-- One full tick of `predictWebcam`: `none` input is the no-hand case
(`results.landmarks` empty), which only sets the gesture status to IDLE
(`HandTracker.tsx` lines 188-190). -/
def predictWebcam (res : Option (List Pt)) (s : AppState) : Option AppState :=
  match res with
  | none => some (setGestureStatus .IDLE s)
  | some lm => handleLandmarks lm s

/-- A three.js-style 3-D vector. -/
structure Vec3 where
  x : ℚ
  y : ℚ
  z : ℚ
deriving Repr, DecidableEq

/-- `Vector3.add`. -/
def Vec3.add (a b : Vec3) : Vec3 := ⟨a.x + b.x, a.y + b.y, a.z + b.z⟩

/-- `Vector3.lerp(v, alpha)`: componentwise `this += (v - this) * alpha`,
the exponential-smoothing step. -/
def Vec3.lerp (a b : Vec3) (alpha : ℚ) : Vec3 :=
  ⟨a.x + (b.x - a.x) * alpha, a.y + (b.y - a.y) * alpha, a.z + (b.z - a.z) * alpha⟩

/-- `THREE.MathUtils.lerp(x, y, t) = x + (y - x) * t`. -/
def lerpQ (x y t : ℚ) : ℚ := x + (y - x) * t

/-- The camera as the controller touches it: its position, and the point
its orientation is aimed at (`camera.lookAt(p)` stores `p`). -/
structure CamPose where
  pos : Vec3
  look : Vec3
deriving Repr, DecidableEq

/-- Saturn's orbital position at time `t` (`SolarSystem.tsx` lines
556-559): angle `t * 0.4 * 0.2 + 5`, radius 42, position
`(cos·42, 0, -sin·42)`.  `co`/`si` stand for `Math.cos`/`Math.sin`. -/
def saturnCenter (co si : ℚ → ℚ) (t : ℚ) : Vec3 :=
  ⟨co (t * (2/5) * (1/5) + 5) * 42, 0, -(si (t * (2/5) * (1/5) + 5) * 42)⟩

/-- Earth's orbital position at time `t` (`SolarSystem.tsx` lines 569-572
and 582-585): angle `t * 1.0 * 0.2 + 2`, radius 18. -/
def earthCenter (co si : ℚ → ℚ) (t : ℚ) : Vec3 :=
  ⟨co (t * 1 * (1/5) + 2) * 18, 0, -(si (t * 1 * (1/5) + 2) * 18)⟩

/-- The moon's orbital offset around its parent at time `t`
(`SolarSystem.tsx` lines 588-591): angle `t * 0.5`, radius 3.5. -/
def moonOffset (co si : ℚ → ℚ) (t : ℚ) : Vec3 :=
  ⟨co (t * (1/2)) * (7/2), 0, -(si (t * (1/2)) * (7/2))⟩

/-- The free camera-depth parameter of the unfocused view
(`SolarSystem.tsx` lines 606-611): two laws split at zoom 0. -/
def zPosOf (zoom : ℚ) : ℚ :=
  if zoom < 0 then 60 + (|zoom| / (1/2)) * 30 else lerpQ 60 4 zoom

/-- The target camera position each branch of the controller steers
toward (`SolarSystem.tsx` lines 562, 574, 598, 613). -/
def targetCameraPos (co si : ℚ → ℚ) (t zoom : ℚ) : Focus → Vec3
  | .SATURN =>
      ⟨(saturnCenter co si t).x + 5, 4, (saturnCenter co si t).z + 9⟩
  | .EARTH =>
      ⟨(earthCenter co si t).x + 2, 1, (earthCenter co si t).z + 4⟩
  | .MOON =>
      ⟨(earthCenter co si t).x + (moonOffset co si t).x + 1, 1/2,
        (earthCenter co si t).z + (moonOffset co si t).z + 2⟩
  | .NONE => ⟨0, 20, zPosOf zoom⟩

/-- The look-at point of each focused branch (`SolarSystem.tsx` lines
563, 575, 599); the NONE branch smooths toward the origin instead. -/
def focusLookAt (co si : ℚ → ℚ) (t : ℚ) : Focus → Vec3
  | .SATURN => ⟨(saturnCenter co si t).x, 0, (saturnCenter co si t).z⟩
  | .EARTH => ⟨(earthCenter co si t).x, 0, (earthCenter co si t).z⟩
  | .MOON =>
      ⟨(earthCenter co si t).x + (moonOffset co si t).x, 0,
        (earthCenter co si t).z + (moonOffset co si t).z⟩
  | .NONE => ⟨0, 0, 0⟩

/-- One tick of the camera logic in `SolarSystem.tsx` lines 551-621.
`fwd` is the camera's current unit forward direction
(`new Vector3(0,0,-1).applyQuaternion(camera.quaternion)`), an input the
renderer supplies; only the NONE branch reads it.  Each branch lerps the
position toward its target with factor 0.05; the focused branches then
call `lookAt` directly on the body's position, while the NONE branch
lerps the point one unit ahead of the camera toward the origin and looks
at that. -/
def cameraTick (co si : ℚ → ℚ) (t zoom : ℚ) (f : Focus) (fwd : Vec3)
    (cam : CamPose) : CamPose :=
  match f with
  | .SATURN =>
      let angle := t * (2/5) * (1/5) + 5
      let saturnX := co angle * 42
      let saturnZ := -(si angle * 42)
      let targetPos : Vec3 := ⟨saturnX + 5, 4, saturnZ + 9⟩
      let lookAtPos : Vec3 := ⟨saturnX, 0, saturnZ⟩
      { pos := cam.pos.lerp targetPos (1/20), look := lookAtPos }
  | .EARTH =>
      let angle := t * 1 * (1/5) + 2
      let earthX := co angle * 18
      let earthZ := -(si angle * 18)
      let targetPos : Vec3 := ⟨earthX + 2, 1, earthZ + 4⟩
      let lookAtPos : Vec3 := ⟨earthX, 0, earthZ⟩
      { pos := cam.pos.lerp targetPos (1/20), look := lookAtPos }
  | .MOON =>
      let earthAngle := t * 1 * (1/5) + 2
      let earthX := co earthAngle * 18
      let earthZ := -(si earthAngle * 18)
      let moonAngle := t * (1/2)
      let moonX := co moonAngle * (7/2)
      let moonZ := -(si moonAngle * (7/2))
      let absMoonX := earthX + moonX
      let absMoonZ := earthZ + moonZ
      let targetPos : Vec3 := ⟨absMoonX + 1, 1/2, absMoonZ + 2⟩
      let lookAtPos : Vec3 := ⟨absMoonX, 0, absMoonZ⟩
      { pos := cam.pos.lerp targetPos (1/20), look := lookAtPos }
  | .NONE =>
      let zPos : ℚ := if zoom < 0 then 60 + (|zoom| / (1/2)) * 30 else lerpQ 60 4 zoom
      let targetPos : Vec3 := ⟨0, 20, zPos⟩
      let newPos := cam.pos.lerp targetPos (1/20)
      let currentLookAt := newPos.add fwd
      let lerpedLookAt := currentLookAt.lerp ⟨0, 0, 0⟩ (1/20)
      { pos := newPos, look := lerpedLookAt }

/-- A concrete hand whose fingers satisfy `isThree` for the
y-comparison tracker: index, middle, ring tips above their pips, pinky
tip below its pip (y grows downward). -/
def handThreeY : Hand :=
  { wrist := ⟨0, 3⟩, thumbTip := ⟨1, 2⟩
    indexTip := ⟨0, 0⟩, indexPip := ⟨0, 1⟩
    middleTip := ⟨0, 0⟩, middlePip := ⟨0, 1⟩
    ringTip := ⟨0, 0⟩, ringPip := ⟨0, 1⟩
    pinkyTip := ⟨0, 2⟩, pinkyPip := ⟨0, 1⟩ }

/-- A concrete hand satisfying both `isPointing` and the pinch-distance
threshold for the y-comparison tracker: only the index is extended and
the thumb tip coincides with the index tip. -/
def handPointPinchY : Hand :=
  { wrist := ⟨0, 3⟩, thumbTip := ⟨0, 0⟩
    indexTip := ⟨0, 0⟩, indexPip := ⟨0, 1⟩
    middleTip := ⟨0, 2⟩, middlePip := ⟨0, 1⟩
    ringTip := ⟨0, 2⟩, ringPip := ⟨0, 1⟩
    pinkyTip := ⟨0, 2⟩, pinkyPip := ⟨0, 1⟩ }

/-- A concrete hand whose fingers satisfy the THREE branch of the
distance-ratio tracker: index/middle/ring tips twice as far from the
wrist as their pips, pinky tip no farther than its pip. -/
def handThreeD : Hand :=
  { wrist := ⟨0, 0⟩, thumbTip := ⟨1, 0⟩
    indexTip := ⟨0, 2⟩, indexPip := ⟨0, 1⟩
    middleTip := ⟨0, 2⟩, middlePip := ⟨0, 1⟩
    ringTip := ⟨0, 2⟩, ringPip := ⟨0, 1⟩
    pinkyTip := ⟨0, 1⟩, pinkyPip := ⟨0, 1⟩ }

/-- A concrete hand satisfying both the POINT shape and the
pinch-distance threshold for the distance-ratio tracker. -/
def handPointPinchD : Hand :=
  { wrist := ⟨0, 0⟩, thumbTip := ⟨0, 2⟩
    indexTip := ⟨0, 2⟩, indexPip := ⟨0, 1⟩
    middleTip := ⟨0, 1⟩, middlePip := ⟨0, 1⟩
    ringTip := ⟨0, 1⟩, ringPip := ⟨0, 1⟩
    pinkyTip := ⟨0, 1⟩, pinkyPip := ⟨0, 1⟩ }

/-- A frame with a single landmark point: a hand was detected but the
frame is far short of the 21 points the tracker indexes into. -/
def shortFrame : List Pt := [⟨0, 0⟩]

/-! ## Helper lemmas -/

/-- Every clamped value lies in the zoom interval. -/
theorem clampZoom_mem (v : ℚ) : zoomInRange (clampZoom v) := by
  unfold zoomInRange clampZoom MIN_ZOOM MAX_ZOOM
  exact ⟨le_max_left _ _, max_le (by norm_num) (min_le_left _ _)⟩

/-- The zoom invariant is preserved by any sequence of zoom mutations. -/
theorem foldl_zoom_invariant : ∀ (ms : List ZoomMutation) (s : AppState),
    zoomInRange s.zoomLevel →
    zoomInRange (ms.foldl (fun t m => applyZoomMutation m t) s).zoomLevel := by
  intro ms
  induction ms with
  | nil => exact fun s hs => hs
  | cons m ms ih =>
      intro s _
      refine ih _ ?_
      cases m <;> exact clampZoom_mem _

/-! ## The claims -/

set_option maxRecDepth 8000 in
/-- Claim C1: every zoom mutation sequence applied to a state with
zoomLevel in [MIN_ZOOM, MAX_ZOOM] = [-0.5, 1.0] leaves it in that
interval; `increaseZoom` at the cap and `decreaseZoom` at the floor
saturate with no overshoot; and from the default 0.2, sixty
`increaseZoom(0.015)` calls give exactly 1.0 (0.2 + 60·0.015 = 1.1,
clamped). -/
theorem zoom_mutations_clamped_saturate :
    (∀ (ms : List ZoomMutation) (s : AppState), zoomInRange s.zoomLevel →
        zoomInRange (ms.foldl (fun t m => applyZoomMutation m t) s).zoomLevel)
  ∧ (∀ (s : AppState) (a : ℚ), s.zoomLevel = MAX_ZOOM → 0 ≤ a →
        (increaseZoom a s).zoomLevel = MAX_ZOOM)
  ∧ (∀ (s : AppState) (a : ℚ), s.zoomLevel = MIN_ZOOM → 0 ≤ a →
        (decreaseZoom a s).zoomLevel = MIN_ZOOM)
  ∧ ((increaseZoom (3/200))^[60] initialState).zoomLevel = MAX_ZOOM := by
  refine ⟨foldl_zoom_invariant, ?_, ?_, ?_⟩
  · intro s a hz ha
    simp only [increaseZoom, clampZoom, hz, MAX_ZOOM, MIN_ZOOM]
    rw [min_eq_left (by linarith), max_eq_right (by norm_num)]
  · intro s a hz ha
    simp only [decreaseZoom, clampZoom, hz, MAX_ZOOM, MIN_ZOOM]
    rw [min_eq_right (by linarith), max_eq_left (by linarith)]
  · simp only [Function.iterate_succ_apply, Function.iterate_zero_apply]
    norm_num [increaseZoom, clampZoom, initialState, MIN_ZOOM, MAX_ZOOM, min_def, max_def]

/-- Claim C1 witness: concrete instantiations — a two-mutation sequence
from the default state stays in range, and the saturation laws applied
at the cap and the floor with amount 0.01. -/
theorem zoom_mutations_clamped_saturate_witness :
    zoomInRange (([ZoomMutation.inc 1, ZoomMutation.dec (1/4)].foldl
        (fun t m => applyZoomMutation m t) initialState).zoomLevel)
  ∧ (increaseZoom (1/100) { initialState with zoomLevel := MAX_ZOOM }).zoomLevel = MAX_ZOOM
  ∧ (decreaseZoom (1/100) { initialState with zoomLevel := MIN_ZOOM }).zoomLevel = MIN_ZOOM := by
  refine ⟨?_, ?_, ?_⟩
  · exact zoom_mutations_clamped_saturate.1 _ initialState
      (by norm_num [initialState, zoomInRange, MIN_ZOOM, MAX_ZOOM])
  · exact zoom_mutations_clamped_saturate.2.1 _ (1/100) rfl (by norm_num)
  · exact zoom_mutations_clamped_saturate.2.2.1 _ (1/100) rfl (by norm_num)

/-- Claim C2: both classifiers evaluate their rules in the fixed priority
order THREE, TWO, POINT, OPEN, PINCH, IDLE with first match winning.
THREE's geometric condition alone forces the label THREE (so any frame
meeting both the THREE and TWO conditions — which are in fact mutually
exclusive on the ring finger — classifies THREE), and a frame meeting
POINT's finger shape together with the pinch-distance threshold
classifies POINT, not PINCH. -/
theorem gesture_priority_first_match :
    (∀ h : Hand, isThree h → classifyY h = .THREE)
  ∧ (∀ h : Hand, isPointing h → isPinchBelowThreshold h → classifyY h = .POINT)
  ∧ (∀ h : Hand, indexOpen h ∧ middleOpen h ∧ ringOpen h ∧ ¬ pinkyOpen h →
        classifyDist h = .THREE)
  ∧ (∀ h : Hand, indexOpen h ∧ ¬ middleOpen h ∧ ¬ ringOpen h ∧ ¬ pinkyOpen h →
        isPinchBelowThreshold h → classifyDist h = .POINT) := by
  refine ⟨?_, ?_, ?_, ?_⟩
  · intro h h3
    unfold classifyY
    rw [if_pos h3]
  · intro h hp hpinch
    unfold classifyY
    rw [if_neg (fun h3 => absurd h3.2.1 (lt_asymm hp.2.1)),
      if_neg (fun h2 => absurd h2.2.1 (lt_asymm hp.2.1)), if_pos hp]
  · intro h hc
    unfold classifyDist
    rw [if_pos hc]
  · intro h hc hpinch
    unfold classifyDist
    rw [if_neg (fun h3 => hc.2.1 h3.2.1), if_neg (fun h2 => hc.2.1 h2.2.1),
      if_pos hc]

/-- Claim C2 witness: concrete frames — `handThreeY` / `handThreeD`
satisfy the THREE conditions and classify THREE; `handPointPinchY` /
`handPointPinchD` satisfy the POINT shape and the pinch threshold at
once and classify POINT. -/
theorem gesture_priority_first_match_witness :
    classifyY handThreeY = .THREE ∧ classifyY handPointPinchY = .POINT
  ∧ classifyDist handThreeD = .THREE ∧ classifyDist handPointPinchD = .POINT := by
  refine ⟨?_, ?_, ?_, ?_⟩
  · exact gesture_priority_first_match.1 handThreeY
      (by norm_num [isThree, isIndexExtended, isMiddleExtended, isRingExtended,
        isPinkyCurled, handThreeY])
  · exact gesture_priority_first_match.2.1 handPointPinchY
      (by norm_num [isPointing, isIndexExtended, isMiddleCurled, isRingCurled,
        isPinkyCurled, handPointPinchY])
      (by norm_num [isPinchBelowThreshold, pinchDistSq, handPointPinchY])
  · exact gesture_priority_first_match.2.2.1 handThreeD
      (by norm_num [indexOpen, middleOpen, ringOpen, pinkyOpen, isExtendedDist,
        wristDistSq, handThreeD])
  · exact gesture_priority_first_match.2.2.2 handPointPinchD
      (by norm_num [indexOpen, middleOpen, ringOpen, pinkyOpen, isExtendedDist,
        wristDistSq, handPointPinchD])
      (by norm_num [isPinchBelowThreshold, pinchDistSq, handPointPinchD])

/-- Claim C3: each classified label drives exactly the prescribed store
updates — THREE sets focus MOON; TWO sets focus EARTH; POINT sets focus
SATURN and the rotation to the index tip's offset from the (0.5, 0.5)
frame center scaled by 4.0; OPEN raises the zoom by 0.015 (clamped);
PINCH sets focus NONE and lowers the zoom by 0.015 (clamped); IDLE
writes nothing but the label. -/
theorem label_drives_store_updates :
    ∀ (g : Gesture) (p : Pt) (s : AppState),
      applyGesture g p s =
        match g with
        | .THREE => { s with gestureStatus := .THREE, focusTarget := .MOON }
        | .TWO => { s with gestureStatus := .TWO, focusTarget := .EARTH }
        | .POINT => { s with
                      gestureStatus := .POINT
                      focusTarget := .SATURN
                      saturnRotation := ((p.y - 1/2) * 4, (p.x - 1/2) * 4) }
        | .OPEN => { s with
                     gestureStatus := .OPEN
                     zoomLevel := clampZoom (s.zoomLevel + 3/200) }
        | .PINCH => { s with
                      gestureStatus := .PINCH
                      focusTarget := .NONE
                      zoomLevel := clampZoom (s.zoomLevel - 3/200) }
        | .IDLE => { s with gestureStatus := .IDLE } := by
  intro g p s
  cases g <;> rfl

/-- Claim C4 counterexample: a detected hand whose frame has a single
landmark point.  The tracker reads `landmarks[4]` and beyond as
`undefined` and the next property access throws a TypeError (modelled
`none`); the result is NOT the IDLE degradation the claim requires. -/
theorem short_frame_raises :
    handleLandmarks shortFrame initialState = none
  ∧ handleLandmarks shortFrame initialState
      ≠ some (setGestureStatus .IDLE initialState) := by
  exact ⟨rfl, by simp [handleLandmarks, readHand, shortFrame]⟩

/-- Claim C4 amended: classification fails closed to IDLE only for the
absent-hand case; any frame with the full 21 landmark points classifies
without raising; but a present hand with fewer than 21 points makes the
per-frame handler raise (`none`) instead of degrading to IDLE. -/
theorem classify_partial_totality :
    (∀ s : AppState, predictWebcam none s = some (setGestureStatus .IDLE s))
  ∧ (∀ (lm : List Pt) (s : AppState), 21 ≤ lm.length →
        (handleLandmarks lm s).isSome = true)
  ∧ (∀ (lm : List Pt) (s : AppState), lm.length < 21 →
        handleLandmarks lm s = none) := by
  refine ⟨fun s => rfl, ?_, ?_⟩
  · intro lm s hlen
    simp only [handleLandmarks, readHand, bind, Option.bind,
      List.getElem?_eq_getElem (show 0 < lm.length by omega),
      List.getElem?_eq_getElem (show 4 < lm.length by omega),
      List.getElem?_eq_getElem (show 8 < lm.length by omega),
      List.getElem?_eq_getElem (show 6 < lm.length by omega),
      List.getElem?_eq_getElem (show 12 < lm.length by omega),
      List.getElem?_eq_getElem (show 10 < lm.length by omega),
      List.getElem?_eq_getElem (show 16 < lm.length by omega),
      List.getElem?_eq_getElem (show 14 < lm.length by omega),
      List.getElem?_eq_getElem (show 20 < lm.length by omega),
      List.getElem?_eq_getElem (show 18 < lm.length by omega),
      Option.map_some', Option.isSome_some]
  · intro lm s hlen
    rcases hr : readHand lm with _ | h
    · simp [handleLandmarks, hr]
    · exfalso
      have h20 : lm[20]? = none := List.getElem?_eq_none (by omega)
      rw [readHand] at hr
      simp only [bind, Option.bind_eq_some] at hr
      obtain ⟨w, hw, hr⟩ := hr
      obtain ⟨tt, htt, hr⟩ := hr
      obtain ⟨it, hit, hr⟩ := hr
      obtain ⟨ip, hip, hr⟩ := hr
      obtain ⟨mt, hmt, hr⟩ := hr
      obtain ⟨mp, hmp, hr⟩ := hr
      obtain ⟨rt, hrt, hr⟩ := hr
      obtain ⟨rp, hrp, hr⟩ := hr
      obtain ⟨pkt, hpkt, hr⟩ := hr
      rw [h20] at hpkt
      exact Option.noConfusion hpkt

/-- Claim C4 witness for the amended statement: the full 21-point frame
of zero points classifies without raising, and a 3-point frame raises. -/
theorem classify_partial_totality_witness :
    (handleLandmarks (List.replicate 21 ⟨0, 0⟩) initialState).isSome = true
  ∧ handleLandmarks (List.replicate 3 ⟨0, 0⟩) initialState = none := by
  constructor
  · exact classify_partial_totality.2.1 _ initialState (by simp)
  · exact classify_partial_totality.2.2 _ initialState (by simp)

/-- Claim C5 (code bug): the trackers select THREE and MOON and the
running store accepts and holds them, but the gesture and focus unions
declared in the store's own `AppState` interface (`part_000` lines
12-16) omit exactly these two values, contradicting the store's callers
(`HandTracker.tsx` lines 138-140, `SolarSystem.tsx` line 580). -/
theorem store_holds_three_and_moon :
    (∀ s : AppState, (setFocusTarget .MOON s).focusTarget = .MOON)
  ∧ (∀ s : AppState, (setGestureStatus .THREE s).gestureStatus = .THREE)
  ∧ declaredGestureUnion.contains "THREE" = false
  ∧ declaredFocusUnion.contains "MOON" = false := by
  exact ⟨fun s => rfl, fun s => rfl, by decide, by decide⟩

/-- Claim C6 counterexample: with FocusTarget SATURN (cosine and sine
supplied as the constant functions 1 and 0, time 0) and a camera
previously looking at the origin, the tick points the camera at Saturn's
exact position (42, 0, 0) — not at the 5%-interpolated point
(2.1, 0, 0) that exponential look-at smoothing would give. -/
theorem lookAt_snap_counterexample :
    (cameraTick (fun _ => 1) (fun _ => 0) 0 0 .SATURN ⟨0, 0, -1⟩
        ⟨⟨0, 0, 0⟩, ⟨0, 0, 0⟩⟩).look = ⟨42, 0, 0⟩
  ∧ Vec3.lerp ⟨0, 0, 0⟩ ⟨42, 0, 0⟩ (1/20) = ⟨21/10, 0, 0⟩
  ∧ ((⟨42, 0, 0⟩ : Vec3) = ⟨21/10, 0, 0⟩) = False := by
  refine ⟨by norm_num [cameraTick, Vec3.lerp], by norm_num [Vec3.lerp], ?_⟩
  simp only [eq_iff_iff, iff_false]
  norm_num [Vec3.mk.injEq]

/-- Claim C6 amended: the camera position advances by
`actual += (target - actual) * 0.05` in every FocusTarget state; the
look-at point is smoothed at that rate only in the NONE state (lerping
the point one unit ahead of the camera toward the origin), while in the
SATURN, EARTH and MOON states the camera is pointed directly at the
body's exact position each tick with no smoothing of the look-at. -/
theorem cameraTick_smoothing :
    (∀ (co si : ℚ → ℚ) (t zoom : ℚ) (f : Focus) (fwd : Vec3) (cam : CamPose),
        (cameraTick co si t zoom f fwd cam).pos
          = cam.pos.lerp (targetCameraPos co si t zoom f) (1/20))
  ∧ (∀ (co si : ℚ → ℚ) (t zoom : ℚ) (fwd : Vec3) (cam : CamPose),
        (cameraTick co si t zoom .NONE fwd cam).look
          = ((cam.pos.lerp (targetCameraPos co si t zoom .NONE) (1/20)).add
              fwd).lerp ⟨0, 0, 0⟩ (1/20))
  ∧ (∀ (co si : ℚ → ℚ) (t zoom : ℚ) (fwd : Vec3) (cam : CamPose),
        (cameraTick co si t zoom .SATURN fwd cam).look = focusLookAt co si t .SATURN)
  ∧ (∀ (co si : ℚ → ℚ) (t zoom : ℚ) (fwd : Vec3) (cam : CamPose),
        (cameraTick co si t zoom .EARTH fwd cam).look = focusLookAt co si t .EARTH)
  ∧ (∀ (co si : ℚ → ℚ) (t zoom : ℚ) (fwd : Vec3) (cam : CamPose),
        (cameraTick co si t zoom .MOON fwd cam).look = focusLookAt co si t .MOON) := by
  refine ⟨?_, ?_, ?_, ?_, ?_⟩
  · intro co si t zoom f fwd cam
    cases f <;> rfl
  all_goals intros
  all_goals rfl

/-- Claim C7: with FocusTarget NONE the target camera position is a
function of the zoom alone, through two laws split at zero: below zero
the depth grows linearly beyond the base distance 60; at or above zero
it interpolates linearly from 60 down to the minimum 4; at zoom 0 it is
exactly the base 60 with no offset. -/
theorem none_zoom_two_laws :
    (∀ (co si : ℚ → ℚ) (t zoom : ℚ),
        targetCameraPos co si t zoom .NONE = ⟨0, 20, zPosOf zoom⟩)
  ∧ (∀ zoom : ℚ, zoom < 0 → zPosOf zoom = 60 + 60 * (-zoom))
  ∧ (∀ zoom : ℚ, 0 ≤ zoom → zPosOf zoom = 60 + (4 - 60) * zoom)
  ∧ zPosOf 0 = 60 := by
  refine ⟨fun co si t zoom => rfl, ?_, ?_, by norm_num [zPosOf, lerpQ]⟩
  · intro z hz
    unfold zPosOf
    rw [if_pos hz, abs_of_neg hz]
    ring
  · intro z hz
    unfold zPosOf
    rw [if_neg (not_lt.mpr hz)]
    unfold lerpQ
    ring

/-- Claim C7 witness: the two laws at the concrete zooms -0.25 and 0.5. -/
theorem none_zoom_two_laws_witness :
    zPosOf (-1/4) = 60 + 60 * (-(-1/4 : ℚ))
  ∧ zPosOf (1/2) = 60 + (4 - 60) * (1/2 : ℚ) := by
  constructor
  · exact none_zoom_two_laws.2.1 (-1/4) (by norm_num)
  · exact none_zoom_two_laws.2.2.1 (1/2) (by norm_num)

/-- Claim C8: with FocusTarget MOON the target camera position is the
parent body's (Earth's) orbital position plus the moon's own orbital
offset plus the fixed camera offset (1, 0.5, 2), both orbital positions
functions of the same clock `t`, and the look-at is the moon's absolute
orbital position with no offset. -/
theorem moon_target_decomposition :
    (∀ (co si : ℚ → ℚ) (t zoom : ℚ),
        targetCameraPos co si t zoom .MOON
          = ((earthCenter co si t).add (moonOffset co si t)).add ⟨1, 1/2, 2⟩)
  ∧ (∀ (co si : ℚ → ℚ) (t : ℚ),
        focusLookAt co si t .MOON = (earthCenter co si t).add (moonOffset co si t)) := by
  constructor <;> intros <;>
    · simp only [targetCameraPos, focusLookAt, Vec3.add, earthCenter, moonOffset,
        Vec3.mk.injEq]
      norm_num

/-- Claim C9: every store operation rewrites exactly one field and leaves
the other three unchanged; in this sequential functional model each
operation is one total state update, so a reader never sees a partial
application. -/
theorem store_ops_update_single_field :
    ∀ (s : AppState) (level amount x y : ℚ) (g : Gesture) (f : Focus),
      ((setZoomLevel level s).gestureStatus = s.gestureStatus
        ∧ (setZoomLevel level s).focusTarget = s.focusTarget
        ∧ (setZoomLevel level s).saturnRotation = s.saturnRotation
        ∧ (setZoomLevel level s).zoomLevel = clampZoom level)
    ∧ ((increaseZoom amount s).gestureStatus = s.gestureStatus
        ∧ (increaseZoom amount s).focusTarget = s.focusTarget
        ∧ (increaseZoom amount s).saturnRotation = s.saturnRotation
        ∧ (increaseZoom amount s).zoomLevel = clampZoom (s.zoomLevel + amount))
    ∧ ((decreaseZoom amount s).gestureStatus = s.gestureStatus
        ∧ (decreaseZoom amount s).focusTarget = s.focusTarget
        ∧ (decreaseZoom amount s).saturnRotation = s.saturnRotation
        ∧ (decreaseZoom amount s).zoomLevel = clampZoom (s.zoomLevel - amount))
    ∧ ((setGestureStatus g s).zoomLevel = s.zoomLevel
        ∧ (setGestureStatus g s).focusTarget = s.focusTarget
        ∧ (setGestureStatus g s).saturnRotation = s.saturnRotation
        ∧ (setGestureStatus g s).gestureStatus = g)
    ∧ ((setFocusTarget f s).zoomLevel = s.zoomLevel
        ∧ (setFocusTarget f s).gestureStatus = s.gestureStatus
        ∧ (setFocusTarget f s).saturnRotation = s.saturnRotation
        ∧ (setFocusTarget f s).focusTarget = f)
    ∧ ((setSaturnRotation x y s).zoomLevel = s.zoomLevel
        ∧ (setSaturnRotation x y s).gestureStatus = s.gestureStatus
        ∧ (setSaturnRotation x y s).focusTarget = s.focusTarget
        ∧ (setSaturnRotation x y s).saturnRotation = (x, y)) := by
  intro s level amount x y g f
  exact ⟨⟨rfl, rfl, rfl, rfl⟩, ⟨rfl, rfl, rfl, rfl⟩, ⟨rfl, rfl, rfl, rfl⟩,
    ⟨rfl, rfl, rfl, rfl⟩, ⟨rfl, rfl, rfl, rfl⟩, ⟨rfl, rfl, rfl, rfl⟩⟩

/-- Claim C10: for every state and amount, `decreaseZoom(a)` produces
exactly the state `increaseZoom(-a)` produces — the same re-clamped zoom
update, touching no other field. -/
theorem decreaseZoom_eq_increaseZoom_neg :
    ∀ (s : AppState) (a : ℚ), decreaseZoom a s = increaseZoom (-a) s := by
  intro s a
  simp [decreaseZoom, increaseZoom, sub_eq_add_neg]

end SolarSys
